import Mathlib

/-!
Verification development for the ai-doc-summarizer-service document pipeline.

Shallow embedding of the orchestration core:
* `src/constants/system.messages.ts`  — centrally defined message strings,
* `src/modules/openrouter/openrouter.service.ts` — `OpenrouterService.analyzeDocument`,
* `src/modules/file-storage/file-storage.service.ts` — blob put/delete behaviour,
* `src/modules/documents/documents.service.ts` — `DocumentsService`
  (`uploadDocument`, `getDocument`, `listDocuments`, `analyzeDocument`,
  `deleteDocument`),
* `src/common/base/abstract-model-action.ts` — record-store CRUD
  (`findOneAndUpdate`-style update, filtered paginated list),
* `src/modules/documents/document.schema.ts` — the `Document` mongoose schema,
* `src/modules/documents/dtos` — `DocumentResponseDto`.

External collaborators (MinIO, mongoose, axios, the LLM itself) are modelled by
their observable outcomes, injected as explicit parameters; the repository's own
control flow is translated statement by statement.
-/

namespace DocSummarizer

/-! ## System messages (`src/constants/system.messages.ts`) -/

namespace sysMsg

def DOCUMENT_UPLOADED : String := "Document uploaded and text extracted successfully."

def DOCUMENT_UPLOAD_FAILED : String := "Document upload failed. Please try again."

def DOCUMENT_UPLOAD_FAILED_TEXT_EXTRACTION : String := "Document upload failed during text extraction."

def DOCUMENT_UPLOAD_FAILED_DATABASE_SAVE : String := "Document upload failed during database save."

def DOCUMENT_NOT_FOUND : String := "Document not found."

def DOCUMENT_FETCHED : String := "Document retrieved successfully."

def DOCUMENTS_FETCHED : String := "Documents retrieved successfully."

def DOCUMENT_DELETED : String := "Document deleted successfully."

def DOCUMENT_INVALID_ID : String := "Invalid document ID provided."

def DOCUMENT_NOT_FOUND_FOR_UPDATE : String := "Document not found for update."

def ANALYSIS_COMPLETED : String := "Document analysis completed successfully."

def ANALYSIS_ALREADY_COMPLETED : String := "Analysis for this document has already been completed."

def FILE_SAVE_FAILED : String := "Failed to save file."

def FILE_DELETE_FAILED : String := "Failed to delete file."

def OPENROUTER_UNAUTHORIZED : String := "Invalid OpenRouter API key. Please check your credentials."

def OPENROUTER_RATE_LIMIT : String := "OpenRouter API rate limit exceeded. Please try again later."

def OPENROUTER_INSUFFICIENT_CREDITS : String := "Insufficient credits on OpenRouter account."

def LLM_ANALYSIS_FAILED : String := "Failed to analyze document with OpenRouter LLM."

def LLM_RESPONSE_INVALID : String := "LLM response is missing required fields."

end sysMsg

/-! ## Errors surfaced to callers

NestJS exceptions are observed by their class and message. `jsError` stands for
a thrown value that is not a Nest `HttpException` (e.g. an axios network
error). -/

inductive ExceptionKind where
  | badRequest
  | notFound
  | internalServerError
  | unsupportedMediaType
  | jsError
deriving DecidableEq

structure ServiceError where
  kind : ExceptionKind
  message : String
deriving DecidableEq

instance {ε α : Type} [DecidableEq ε] [DecidableEq α] : DecidableEq (Except ε α) := fun x y =>
  match x, y with
  | .ok a, .ok b =>
    if h : a = b then .isTrue (by rw [h]) else .isFalse (fun hc => h (Except.ok.inj hc))
  | .error a, .error b =>
    if h : a = b then .isTrue (by rw [h]) else .isFalse (fun hc => h (Except.error.inj hc))
  | .ok _, .error _ => .isFalse (fun hc => Except.noConfusion hc)
  | .error _, .ok _ => .isFalse (fun hc => Except.noConfusion hc)

/-- Success envelope `{ message, data }` (`src/common/interfaces`). -/
structure ApiResponse (α : Type) where
  message : String
  data : α
deriving DecidableEq

/-! ## Data model (`document.schema.ts`) -/

inductive AnalysisStatus where
  | PENDING
  | ANALYZING
  | COMPLETED
  | FAILED
deriving DecidableEq

/-- `ExtractedMetadata` (`src/common/types`): date, sender, totalAmount, keywords. -/
structure ExtractedMetadata where
  date : Option String
  sender : Option String
  totalAmount : Option String
  keywords : List String
deriving DecidableEq

def emptyMetadata : ExtractedMetadata := ⟨none, none, none, []⟩

/-- The persisted `Document` record. Text is modelled as a character list so
that the hard character-count cut of the service is the literal `List.take`.
`documentType` is a plain string: the service writes
`analysisResult.documentType` through `findOneAndUpdate` without enum
validation (mongoose does not run validators on update by default). -/
structure Document where
  id : String
  originalName : String
  mimetype : String
  size : Nat
  storagePath : String
  extractedText : List Char
  analysisStatus : AnalysisStatus
  summary : Option String
  documentType : Option String
  extractedMetadata : Option ExtractedMetadata
  isDeleted : Bool
  deletedAt : Option Nat
  createdAt : Nat
  updatedAt : Nat
deriving DecidableEq

/-- `DocumentResponseDto`: exactly the eleven `@Expose`d fields; the internal
`storagePath`, `isDeleted` and `deletedAt` have no counterpart here. -/
structure DocumentResponseDto where
  id : String
  originalName : String
  mimetype : String
  size : Nat
  analysisStatus : AnalysisStatus
  extractedText : List Char
  summary : Option String
  documentType : Option String
  extractedMetadata : Option ExtractedMetadata
  createdAt : Nat
  updatedAt : Nat
deriving DecidableEq

/-- The `DocumentResponseDto` constructor: copies the exposed fields of the
stored record and nothing else. -/
def toResponseDto (d : Document) : DocumentResponseDto :=
  ⟨d.id, d.originalName, d.mimetype, d.size, d.analysisStatus, d.extractedText,
    d.summary, d.documentType, d.extractedMetadata, d.createdAt, d.updatedAt⟩

/-! ## OpenRouter analysis client (`openrouter.service.ts`) -/

/-- `ILLMAnalysisResult`. -/
structure ILLMAnalysisResult where
  summary : String
  documentType : String
  extractedMetadata : ExtractedMetadata
deriving DecidableEq

/-- The JSON object obtained from the response content, with each of the three
required fields possibly absent (`none`). An empty string is JS-falsy, which
the validation below accounts for. -/
structure ParsedContent where
  summary : Option String
  documentType : Option String
  extractedMetadata : Option ExtractedMetadata
deriving DecidableEq

/-- Outcome of the axios call, as observed by `analyzeDocument`:
either an HTTP response with `status < 500` (axios is configured with
`validateStatus: status < 500`), carrying the parsed message content
(`none` models a missing/empty `choices[0]?.message?.content`), or a thrown
transport error (network failure or 5xx). -/
inductive LLMCall where
  | response (status : Nat) (content : Option ParsedContent) (upstreamMessage : Option String)
  | transportError (message : String)
deriving DecidableEq

/-- The body of the `try` block of `OpenrouterService.analyzeDocument`
(lines 88-147): status-code dispatch, content presence check, and
required-field validation (JS truthiness: a missing or empty `summary` or
`documentType`, or a missing `extractedMetadata` object, fails validation). -/
def openrouterAnalyzeInner : LLMCall → Except ServiceError ILLMAnalysisResult
  | .transportError m => .error ⟨.jsError, m⟩
  | .response status content upstreamMessage =>
    if status == 401 || status == 403 then
      .error ⟨.internalServerError, sysMsg.OPENROUTER_UNAUTHORIZED⟩
    else if status == 429 then
      .error ⟨.internalServerError, sysMsg.OPENROUTER_RATE_LIMIT⟩
    else if status == 402 then
      .error ⟨.internalServerError, sysMsg.OPENROUTER_INSUFFICIENT_CREDITS⟩
    else if 400 ≤ status then
      .error ⟨.internalServerError,
        "OpenRouter API error: " ++ upstreamMessage.getD "Unknown error"⟩
    else
      match content with
      | none => .error ⟨.internalServerError, sysMsg.LLM_RESPONSE_INVALID⟩
      | some pc =>
        match pc.summary, pc.documentType, pc.extractedMetadata with
        | some s, some dt, some md =>
          if s.isEmpty || dt.isEmpty then
            .error ⟨.internalServerError, sysMsg.LLM_RESPONSE_INVALID⟩
          else
            .ok ⟨s, dt, md⟩
        | _, _, _ => .error ⟨.internalServerError, sysMsg.LLM_RESPONSE_INVALID⟩

/-- `OpenrouterService.analyzeDocument` as seen by its callers: the whole body
above sits inside one `try`, and the `catch` (lines 148-156) rethrows every
failure — including the specific exceptions the body itself just threw — as a
single generic `InternalServerErrorException(LLM_ANALYSIS_FAILED)`. -/
def openrouterAnalyze (call : LLMCall) : Except ServiceError ILLMAnalysisResult :=
  match openrouterAnalyzeInner call with
  | .ok v => .ok v
  | .error _ => .error ⟨.internalServerError, sysMsg.LLM_ANALYSIS_FAILED⟩

/-! ## Identifier validation

`mongoose.isValidObjectId` on a string input: 24 hexadecimal characters.
The service only ever branches on the boolean outcome, and the theorems below
take that outcome as a hypothesis, so the precise predicate matters only for
concrete witnesses. -/

def isHexDigitChar (c : Char) : Bool :=
  c.isDigit || ('a' ≤ c && c ≤ 'f') || ('A' ≤ c && c ≤ 'F')

def isValidObjectId (s : String) : Bool :=
  s.length == 24 && s.toList.all isHexDigitChar

/-! ## Record store (`abstract-model-action.ts` over the `Document` model)

The MongoDB collection is a list of records; `_id` is the primary key.
`get` with `{ _id: id, isDeleted: false }` is `find?` with that filter;
`findOneAndUpdate` patches the first record matching the identifier and
returns the patched record (`new: true`), failing with
`NotFoundException(DOCUMENT_NOT_FOUND_FOR_UPDATE)` when nothing matches. -/

def storeGet (docs : List Document) (id : String) : Option Document :=
  docs.find? (fun d => d.id == id && !d.isDeleted)

def storeFindById (docs : List Document) (id : String) : Option Document :=
  docs.find? (fun d => d.id == id)

/-- Replace the first element satisfying `p` by its image under `f`
(the effect of `findOneAndUpdate` on the collection). -/
def updateFirst (p : α → Bool) (f : α → α) : List α → List α
  | [] => []
  | x :: xs => if p x then f x :: xs else x :: updateFirst p f xs

/-- `DocumentModelAction.update` with `identifierOptions { _id: id }`:
returns the updated record (`new: true`) and the new collection, or
`NotFoundException` when no record has this id. -/
def storeUpdate (docs : List Document) (id : String) (patch : Document → Document) :
    Except ServiceError (Document × List Document) :=
  match storeFindById docs id with
  | none => .error ⟨.notFound, sysMsg.DOCUMENT_NOT_FOUND_FOR_UPDATE⟩
  | some d => .ok (patch d, updateFirst (fun x => x.id == id) patch docs)

/-! ## Upload pipeline (`DocumentsService.uploadDocument`, lines 162-227) -/

def MAX_TEXT_LENGTH : Nat := 200000

/-- Outcomes of the external collaborators during one upload run:
the MinIO `saveFile` (generated object key, or a thrown error), the text
extraction (`extractTextFromBuffer`), whether the database `create` throws,
whether the compensating MinIO `deleteFile` throws, plus the id and timestamp
MongoDB assigns on create. -/
structure UploadEnv where
  putResult : Except String String
  extractResult : Except String (List Char)
  createFails : Bool
  deleteFails : Bool
  newId : String
  now : Nat
deriving DecidableEq

/-- The `Express.Multer.File` fields the service reads (the buffer itself is
abstracted: its extraction outcome is in `UploadEnv`). -/
structure FileInput where
  originalname : String
  mimetype : String
  size : Nat
deriving DecidableEq

structure UploadState where
  blobs : List String
  docs : List Document
deriving DecidableEq

structure UploadResult where
  outcome : Except ServiceError (ApiResponse DocumentResponseDto)
  blobs : List String
  docs : List Document
deriving DecidableEq

/-- `DocumentsService.uploadDocument`, step by step:
1. `saveFile`; on throw: surface `InternalServerErrorException(DOCUMENT_UPLOAD_FAILED)`.
2. `extractTextFromBuffer`; on throw: `await deleteFile(objectKey)` — this call
   is *not* guarded, so when `deleteFile` itself throws, its
   `InternalServerErrorException(FILE_DELETE_FAILED)` propagates out of the
   `catch` block and the extraction error below it is never thrown; otherwise
   surface `DOCUMENT_UPLOAD_FAILED_TEXT_EXTRACTION`.
3. Truncate to `MAX_TEXT_LENGTH` characters when longer.
4. `documentModelAction.create` with status `PENDING`; on throw: same
   unguarded compensation, then surface `DOCUMENT_UPLOAD_FAILED_DATABASE_SAVE`.
5. Return `{ message: DOCUMENT_UPLOADED, data: DocumentResponseDto }`. -/
def uploadDocument (env : UploadEnv) (file : FileInput) (s : UploadState) : UploadResult :=
  match env.putResult with
  | .error _ =>
    ⟨.error ⟨.internalServerError, sysMsg.DOCUMENT_UPLOAD_FAILED⟩, s.blobs, s.docs⟩
  | .ok objectKey =>
    let blobs1 := objectKey :: s.blobs
    match env.extractResult with
    | .error _ =>
      if env.deleteFails then
        ⟨.error ⟨.internalServerError, sysMsg.FILE_DELETE_FAILED⟩, blobs1, s.docs⟩
      else
        ⟨.error ⟨.internalServerError, sysMsg.DOCUMENT_UPLOAD_FAILED_TEXT_EXTRACTION⟩,
          blobs1.erase objectKey, s.docs⟩
    | .ok rawText =>
      let extractedText :=
        if rawText.length > MAX_TEXT_LENGTH then rawText.take MAX_TEXT_LENGTH else rawText
      if env.createFails then
        if env.deleteFails then
          ⟨.error ⟨.internalServerError, sysMsg.FILE_DELETE_FAILED⟩, blobs1, s.docs⟩
        else
          ⟨.error ⟨.internalServerError, sysMsg.DOCUMENT_UPLOAD_FAILED_DATABASE_SAVE⟩,
            blobs1.erase objectKey, s.docs⟩
      else
        let newDoc : Document :=
          { id := env.newId
            originalName := file.originalname
            mimetype := file.mimetype
            size := file.size
            storagePath := objectKey
            extractedText := extractedText
            analysisStatus := .PENDING
            summary := none
            documentType := none
            extractedMetadata := some emptyMetadata
            isDeleted := false
            deletedAt := none
            createdAt := env.now
            updatedAt := env.now }
        ⟨.ok ⟨sysMsg.DOCUMENT_UPLOADED, toResponseDto newDoc⟩, blobs1, s.docs ++ [newDoc]⟩

/-! ## Analyze pipeline (`DocumentsService.analyzeDocument`, lines 284-349)

The result carries instrumentation: how many times the record store was
queried (`storeGets`) and written (`storeWrites`), and how many times the
OpenRouter client was invoked (`llmCalls`). -/

structure AnalyzeResult where
  outcome : Except ServiceError (ApiResponse DocumentResponseDto)
  docs : List Document
  llmCalls : Nat
  storeWrites : Nat
  storeGets : Nat
deriving DecidableEq

def analyzeDocument (llm : LLMCall) (id : String) (forceReAnalysis : Bool)
    (docs : List Document) : AnalyzeResult :=
  if !(isValidObjectId id) then
    ⟨.error ⟨.badRequest, sysMsg.DOCUMENT_INVALID_ID⟩, docs, 0, 0, 0⟩
  else
    match storeGet docs id with
    | none => ⟨.error ⟨.notFound, sysMsg.DOCUMENT_NOT_FOUND⟩, docs, 0, 0, 1⟩
    | some document =>
      if document.analysisStatus == .COMPLETED && !forceReAnalysis then
        ⟨.ok ⟨sysMsg.ANALYSIS_ALREADY_COMPLETED, toResponseDto document⟩, docs, 0, 0, 1⟩
      else
        match storeUpdate docs id (fun d => { d with analysisStatus := .ANALYZING }) with
        | .error e => ⟨.error e, docs, 0, 1, 1⟩
        | .ok (_, docs1) =>
          match openrouterAnalyze llm with
          | .error llmError =>
            match storeUpdate docs1 id (fun d => { d with analysisStatus := .FAILED }) with
            | .error e2 => ⟨.error e2, docs1, 1, 2, 1⟩
            | .ok (_, docs2) => ⟨.error llmError, docs2, 1, 2, 1⟩
          | .ok analysisResult =>
            match storeUpdate docs1 id (fun d =>
                { d with
                  summary := some analysisResult.summary
                  documentType := some analysisResult.documentType
                  extractedMetadata := some analysisResult.extractedMetadata
                  analysisStatus := .COMPLETED }) with
            | .error e => ⟨.error e, docs1, 1, 2, 1⟩
            | .ok (updatedDocument, docs2) =>
              ⟨.ok ⟨sysMsg.ANALYSIS_COMPLETED, toResponseDto updatedDocument⟩, docs2, 1, 2, 1⟩

/-! ## Get and delete (`DocumentsService.getDocument` / `deleteDocument`) -/

structure GetResult where
  outcome : Except ServiceError (ApiResponse DocumentResponseDto)
  storeGets : Nat
deriving DecidableEq

def getDocument (id : String) (docs : List Document) : GetResult :=
  if !(isValidObjectId id) then
    ⟨.error ⟨.badRequest, sysMsg.DOCUMENT_INVALID_ID⟩, 0⟩
  else
    match storeGet docs id with
    | none => ⟨.error ⟨.notFound, sysMsg.DOCUMENT_NOT_FOUND⟩, 1⟩
    | some document => ⟨.ok ⟨sysMsg.DOCUMENT_FETCHED, toResponseDto document⟩, 1⟩

structure DeleteResult where
  outcome : Except ServiceError (ApiResponse (Option Unit))
  docs : List Document
deriving DecidableEq

/-- `deleteDocument`: id validation, lookup with `isDeleted: false`, then an
update setting `isDeleted` and `deletedAt` (the response data is `null`). -/
def deleteDocument (id : String) (now : Nat) (docs : List Document) : DeleteResult :=
  if !(isValidObjectId id) then
    ⟨.error ⟨.badRequest, sysMsg.DOCUMENT_INVALID_ID⟩, docs⟩
  else
    match storeGet docs id with
    | none => ⟨.error ⟨.notFound, sysMsg.DOCUMENT_NOT_FOUND⟩, docs⟩
    | some _ =>
      match storeUpdate docs id
          (fun d => { d with isDeleted := true, deletedAt := some now }) with
      | .error e => ⟨.error e, docs⟩
      | .ok (_, docs1) => ⟨.ok ⟨sysMsg.DOCUMENT_DELETED, none⟩, docs1⟩

/-! ## List (`DocumentsService.listDocuments` + `AbstractModelAction.list`) -/

structure ListQuery where
  page : Nat
  limit : Nat
  analysisStatus : Option AnalysisStatus
  documentType : Option String
deriving DecidableEq

/-- The mongo filter built by `listDocuments`: implicit `isDeleted: false`
composed with the optional status and type filters. -/
def matchesFilter (q : ListQuery) (d : Document) : Bool :=
  !d.isDeleted
    && (match q.analysisStatus with
        | none => true
        | some st => d.analysisStatus == st)
    && (match q.documentType with
        | none => true
        | some t => d.documentType == some t)

/-- Insertion step of the `sort({ createdAt: -1 })` ordering. -/
def insertByCreatedAtDesc (d : Document) : List Document → List Document
  | [] => [d]
  | x :: xs =>
    if x.createdAt ≤ d.createdAt then d :: x :: xs else x :: insertByCreatedAtDesc d xs

def sortByCreatedAtDesc : List Document → List Document
  | [] => []
  | x :: xs => insertByCreatedAtDesc x (sortByCreatedAtDesc xs)

structure PaginationMeta where
  total : Nat
  page : Nat
  limit : Nat
  total_pages : Nat
  has_next : Bool
  has_previous : Bool
deriving DecidableEq

structure ListResult where
  message : String
  data : List DocumentResponseDto
  pagination : PaginationMeta
deriving DecidableEq

/-- `listDocuments`: filter, sort by `createdAt` descending, paginate with
`skip = (page-1)*limit` / `limit`, and `countDocuments` on the same filter;
`total_pages = ceil(total/limit)`, `has_next = page < total_pages`,
`has_previous = page > 1`. -/
def listDocuments (q : ListQuery) (docs : List Document) : ListResult :=
  let filtered := docs.filter (matchesFilter q)
  let sorted := sortByCreatedAtDesc filtered
  let total := filtered.length
  let skip := (q.page - 1) * q.limit
  let pageItems := (sorted.drop skip).take q.limit
  let total_pages := (total + q.limit - 1) / q.limit
  ⟨sysMsg.DOCUMENTS_FETCHED, pageItems.map toResponseDto,
    ⟨total, q.page, q.limit, total_pages,
      decide (q.page < total_pages), decide (q.page > 1)⟩⟩

/-! ## Helper lemmas -/

theorem updateFirst_length (p : α → Bool) (f : α → α) :
    ∀ l : List α, (updateFirst p f l).length = l.length
  | [] => rfl
  | x :: xs => by
    simp only [updateFirst]
    split <;> simp [updateFirst_length p f xs]

theorem find?_updateFirst (p : α → Bool) (f : α → α) :
    ∀ (l : List α) (a : α), l.find? p = some a → p (f a) = true →
      (updateFirst p f l).find? p = some (f a)
  | [], a, hfind, _ => by simp at hfind
  | x :: xs, a, hfind, hfa => by
    by_cases hx : p x = true
    · rw [List.find?_cons_of_pos _ hx] at hfind
      injection hfind with h
      subst h
      simp only [updateFirst, hx, if_true]
      exact List.find?_cons_of_pos _ hfa
    · have hx' : p x = false := by simpa using hx
      rw [List.find?_cons_of_neg _ (by simp [hx'])] at hfind
      simp only [updateFirst, hx', Bool.false_eq_true, if_false]
      rw [List.find?_cons_of_neg _ (by simp [hx'])]
      exact find?_updateFirst p f xs a hfind hfa

theorem mem_updateFirst_of_find? (p : α → Bool) (f : α → α) :
    ∀ (l : List α) (a : α), l.find? p = some a → f a ∈ updateFirst p f l
  | [], a, hfind => by simp at hfind
  | x :: xs, a, hfind => by
    by_cases hx : p x = true
    · rw [List.find?_cons_of_pos _ hx] at hfind
      injection hfind with h
      subst h
      simp [updateFirst, hx]
    · have hx' : p x = false := by simpa using hx
      rw [List.find?_cons_of_neg _ (by simp [hx'])] at hfind
      simp only [updateFirst, hx', Bool.false_eq_true, if_false]
      exact List.mem_cons_of_mem x (mem_updateFirst_of_find? p f xs a hfind)

theorem updateFirst_comp (p : α → Bool) (f g : α → α)
    (hpf : ∀ a, p a = true → p (f a) = true) :
    ∀ l : List α, updateFirst p g (updateFirst p f l) = updateFirst p (fun a => g (f a)) l
  | [] => rfl
  | x :: xs => by
    by_cases hx : p x = true
    · simp [updateFirst, hx, hpf x hx]
    · have hx' : p x = false := by simpa using hx
      simp [updateFirst, hx', updateFirst_comp p f g hpf xs]

theorem mem_of_mem_updateFirst (p : α → Bool) (f : α → α) :
    ∀ (l : List α) (x : α), x ∈ updateFirst p f l → x ∈ l ∨ ∃ a ∈ l, p a = true ∧ x = f a
  | [], x, hx => by simp [updateFirst] at hx
  | y :: ys, x, hx => by
    by_cases hy : p y = true
    · simp only [updateFirst, hy, if_true] at hx
      rcases List.mem_cons.mp hx with h | h
      · exact Or.inr ⟨y, List.mem_cons_self y ys, hy, h⟩
      · exact Or.inl (List.mem_cons_of_mem y h)
    · have hy' : p y = false := by simpa using hy
      simp only [updateFirst, hy', Bool.false_eq_true, if_false] at hx
      rcases List.mem_cons.mp hx with h | h
      · exact Or.inl (by simp [h])
      · rcases mem_of_mem_updateFirst p f ys x h with h' | ⟨a, ha, hpa, hxa⟩
        · exact Or.inl (List.mem_cons_of_mem y h')
        · exact Or.inr ⟨a, List.mem_cons_of_mem y ha, hpa, hxa⟩

/-- Under unique ids, the unguarded lookup by `_id` alone agrees with the
`{ _id, isDeleted: false }` lookup whenever the latter succeeds. -/
theorem storeFindById_of_storeGet :
    ∀ (docs : List Document) (id : String) (d : Document),
      (docs.map Document.id).Nodup → storeGet docs id = some d →
      storeFindById docs id = some d
  | [], id, d, _, hget => by simp [storeGet] at hget
  | x :: xs, id, d, hnodup, hget => by
    rw [List.map_cons, List.nodup_cons] at hnodup
    by_cases hx : (x.id == id) = true
    · unfold storeFindById
      rw [@List.find?_cons_of_pos _ (fun y => y.id == id) x xs hx]
      by_cases hdel : x.isDeleted = true
      · exfalso
        unfold storeGet at hget
        rw [@List.find?_cons_of_neg _ (fun y => y.id == id && !y.isDeleted) x xs
          (by simp [hx, hdel])] at hget
        have hmem : d ∈ xs := List.mem_of_find?_eq_some hget
        have hpd := List.find?_some hget
        have hdid : d.id = id := by
          have := (Bool.and_eq_true _ _).mp hpd |>.1
          exact eq_of_beq this
        have hxid : x.id = id := eq_of_beq hx
        exact hnodup.1 (by rw [hxid, ← hdid]; exact List.mem_map_of_mem Document.id hmem)
      · have hdel' : x.isDeleted = false := by simpa using hdel
        unfold storeGet at hget
        rw [@List.find?_cons_of_pos _ (fun y => y.id == id && !y.isDeleted) x xs
          (by simp [hx, hdel'])] at hget
        exact hget
    · have hx' : (x.id == id) = false := by simpa using hx
      unfold storeGet at hget
      rw [@List.find?_cons_of_neg _ (fun y => y.id == id && !y.isDeleted) x xs
        (by simp [hx'])] at hget
      unfold storeFindById
      rw [@List.find?_cons_of_neg _ (fun y => y.id == id) x xs (by simp [hx'])]
      exact storeFindById_of_storeGet xs id d hnodup.2 hget

/-- Marking the (unique) record with a given id as deleted makes the
`{ _id, isDeleted: false }` lookup fail. -/
theorem storeGet_updateFirst_deleted (id : String) (f : Document → Document)
    (hfid : ∀ a, (f a).id = a.id) (hfdel : ∀ a, (f a).isDeleted = true) :
    ∀ docs : List Document, (docs.map Document.id).Nodup →
      storeGet (updateFirst (fun x => x.id == id) f docs) id = none
  | [], _ => rfl
  | x :: xs, hnodup => by
    rw [List.map_cons, List.nodup_cons] at hnodup
    by_cases hx : (x.id == id) = true
    · simp only [updateFirst, hx, if_true]
      unfold storeGet
      rw [@List.find?_cons_of_neg _ (fun y => y.id == id && !y.isDeleted) (f x) xs
        (by simp [hfdel x])]
      rw [List.find?_eq_none]
      intro y hy hpy
      have hyid : y.id = id := by
        have := (Bool.and_eq_true _ _).mp hpy |>.1
        exact eq_of_beq this
      have hxid : x.id = id := eq_of_beq hx
      exact hnodup.1 (by rw [hxid, ← hyid]; exact List.mem_map_of_mem Document.id hy)
    · have hx' : (x.id == id) = false := by simpa using hx
      simp only [updateFirst, hx', Bool.false_eq_true, if_false]
      unfold storeGet
      rw [@List.find?_cons_of_neg _ (fun y => y.id == id && !y.isDeleted) x
        (updateFirst (fun y => y.id == id) f xs) (by simp [hx'])]
      exact storeGet_updateFirst_deleted id f hfid hfdel xs hnodup.2

theorem mem_insertByCreatedAtDesc (d x : Document) :
    ∀ l : List Document, (x ∈ insertByCreatedAtDesc d l ↔ x = d ∨ x ∈ l)
  | [] => by simp [insertByCreatedAtDesc]
  | y :: ys => by
    simp only [insertByCreatedAtDesc]
    split
    · simp [List.mem_cons]
    · rw [List.mem_cons, mem_insertByCreatedAtDesc d x ys, List.mem_cons]
      tauto

theorem mem_sortByCreatedAtDesc (x : Document) :
    ∀ l : List Document, (x ∈ sortByCreatedAtDesc l ↔ x ∈ l)
  | [] => Iff.rfl
  | y :: ys => by
    simp only [sortByCreatedAtDesc]
    rw [mem_insertByCreatedAtDesc, mem_sortByCreatedAtDesc x ys, List.mem_cons]

/-! ## Claims -/

/-- C1: in every upload run where the blob put succeeds and a later step fails
(text extraction fails, or the record-store create fails), the compensation
deletes the stored blob, no `DocumentRecord` is created, and the corresponding
failure (extraction failure resp. persistence failure) is surfaced to the
caller, so no orphaned blob remains.  Per the claim's own exception clause,
the runs in which the compensating delete itself fails are excluded
(hypothesis `hdel`); claim C6 treats those runs. -/
theorem upload_compensation_invariant (env : UploadEnv) (file : FileInput) (s : UploadState)
    (k : String)
    (hput : env.putResult = .ok k)
    (hfresh : k ∉ s.blobs)
    (hdel : env.deleteFails = false)
    (hfail : (∃ m, env.extractResult = .error m) ∨ env.createFails = true) :
    (uploadDocument env file s).blobs = s.blobs ∧
    k ∉ (uploadDocument env file s).blobs ∧
    (uploadDocument env file s).docs = s.docs ∧
    ((∃ m, env.extractResult = .error m) →
      (uploadDocument env file s).outcome =
        .error ⟨.internalServerError, sysMsg.DOCUMENT_UPLOAD_FAILED_TEXT_EXTRACTION⟩) ∧
    (∀ raw, env.extractResult = .ok raw →
      (uploadDocument env file s).outcome =
        .error ⟨.internalServerError, sysMsg.DOCUMENT_UPLOAD_FAILED_DATABASE_SAVE⟩) := by
  cases hext : env.extractResult with
  | error m =>
    have hres : uploadDocument env file s =
        ⟨.error ⟨.internalServerError, sysMsg.DOCUMENT_UPLOAD_FAILED_TEXT_EXTRACTION⟩,
          s.blobs, s.docs⟩ := by
      simp [uploadDocument, hput, hext, hdel, List.erase_cons_head]
    rw [hres]
    exact ⟨rfl, hfresh, rfl, fun _ => rfl,
      fun raw hraw => Except.noConfusion hraw⟩
  | ok raw =>
    have hcreate : env.createFails = true := by
      rcases hfail with ⟨m, hm⟩ | hc
      · rw [hext] at hm; exact absurd hm (by simp)
      · exact hc
    have hres : uploadDocument env file s =
        ⟨.error ⟨.internalServerError, sysMsg.DOCUMENT_UPLOAD_FAILED_DATABASE_SAVE⟩,
          s.blobs, s.docs⟩ := by
      simp [uploadDocument, hput, hext, hcreate, hdel, List.erase_cons_head]
    rw [hres]
    refine ⟨rfl, hfresh, rfl, ?_, fun raw hraw => rfl⟩
    rintro ⟨m, hm⟩
    exact Except.noConfusion hm

theorem upload_compensation_invariant_witness :
    (uploadDocument ⟨.ok "k1", .error "bad pdf", false, false, "id1", 0⟩
        ⟨"a.pdf", "application/pdf", 10⟩ ⟨[], []⟩).blobs = [] ∧
    "k1" ∉ (uploadDocument ⟨.ok "k1", .error "bad pdf", false, false, "id1", 0⟩
        ⟨"a.pdf", "application/pdf", 10⟩ ⟨[], []⟩).blobs ∧
    (uploadDocument ⟨.ok "k1", .error "bad pdf", false, false, "id1", 0⟩
        ⟨"a.pdf", "application/pdf", 10⟩ ⟨[], []⟩).docs = [] ∧
    (uploadDocument ⟨.ok "k1", .error "bad pdf", false, false, "id1", 0⟩
        ⟨"a.pdf", "application/pdf", 10⟩ ⟨[], []⟩).outcome =
      .error ⟨.internalServerError, sysMsg.DOCUMENT_UPLOAD_FAILED_TEXT_EXTRACTION⟩ := by
  have h := upload_compensation_invariant
    ⟨.ok "k1", .error "bad pdf", false, false, "id1", 0⟩
    ⟨"a.pdf", "application/pdf", 10⟩ ⟨[], []⟩ "k1" rfl (by simp) rfl
    (Or.inl ⟨"bad pdf", rfl⟩)
  exact ⟨h.1, h.2.1, h.2.2.1, h.2.2.2.1 ⟨"bad pdf", rfl⟩⟩

/-- C2: when the raw extracted text exceeds `MAX_TEXT_LENGTH = 200000`
characters, the created record stores exactly the first 200000 characters
(length exactly 200000); when it is at most 200000 characters, the raw text is
stored unchanged. -/
theorem upload_truncation (env : UploadEnv) (file : FileInput) (s : UploadState)
    (k : String) (raw : List Char)
    (hput : env.putResult = .ok k)
    (hext : env.extractResult = .ok raw)
    (hcreate : env.createFails = false) :
    ∃ d, (uploadDocument env file s).docs = s.docs ++ [d] ∧
      d.extractedText =
        (if raw.length > MAX_TEXT_LENGTH then raw.take MAX_TEXT_LENGTH else raw) ∧
      (raw.length > MAX_TEXT_LENGTH →
        d.extractedText.length = MAX_TEXT_LENGTH ∧
        d.extractedText = raw.take MAX_TEXT_LENGTH) ∧
      (raw.length ≤ MAX_TEXT_LENGTH → d.extractedText = raw) ∧
      (uploadDocument env file s).outcome = .ok ⟨sysMsg.DOCUMENT_UPLOADED, toResponseDto d⟩ := by
  simp only [uploadDocument, hput, hext, hcreate, Bool.false_eq_true, if_false]
  refine ⟨_, rfl, rfl, ?_, ?_, rfl⟩
  · intro h
    refine ⟨?_, ?_⟩
    · simp only [if_pos h, List.length_take]
      exact Nat.min_eq_left (Nat.le_of_lt h)
    · simp only [if_pos h]
  · intro h
    simp only [if_neg (Nat.not_lt.mpr h)]

theorem upload_truncation_witness :
    200000 < (List.replicate 200001 'a').length ∧
    (∃ d, (uploadDocument
          ⟨.ok "k1", .ok (List.replicate 200001 'a'), false, false, "id1", 7⟩
          ⟨"a.pdf", "application/pdf", 10⟩ ⟨[], []⟩).docs = [] ++ [d] ∧
      d.extractedText =
        (if (List.replicate 200001 'a').length > MAX_TEXT_LENGTH then
          (List.replicate 200001 'a').take MAX_TEXT_LENGTH
        else (List.replicate 200001 'a')) ∧
      ((List.replicate 200001 'a').length > MAX_TEXT_LENGTH →
        d.extractedText.length = MAX_TEXT_LENGTH ∧
        d.extractedText = (List.replicate 200001 'a').take MAX_TEXT_LENGTH) ∧
      ((List.replicate 200001 'a').length ≤ MAX_TEXT_LENGTH →
        d.extractedText = List.replicate 200001 'a') ∧
      (uploadDocument ⟨.ok "k1", .ok (List.replicate 200001 'a'), false, false, "id1", 7⟩
          ⟨"a.pdf", "application/pdf", 10⟩ ⟨[], []⟩).outcome =
        .ok ⟨sysMsg.DOCUMENT_UPLOADED, toResponseDto d⟩) :=
  ⟨by rw [List.length_replicate]; omega,
    upload_truncation _ _ _ "k1" (List.replicate 200001 'a') rfl rfl rfl⟩

/-- C6, counterexample: blob put succeeds, extraction fails, and the
compensating delete fails; the failure surfaced to the caller is
`FILE_DELETE_FAILED`, not the original extraction failure — the claim that the
original `ExtractionFailure` is still surfaced is false on the code. -/
theorem upload_delete_failure_masks_counterexample :
    (uploadDocument ⟨.ok "k1", .error "bad pdf", false, true, "id1", 0⟩
        ⟨"a.pdf", "application/pdf", 10⟩ ⟨[], []⟩).outcome =
      .error ⟨.internalServerError, sysMsg.FILE_DELETE_FAILED⟩ ∧
    sysMsg.FILE_DELETE_FAILED ≠ sysMsg.DOCUMENT_UPLOAD_FAILED_TEXT_EXTRACTION :=
  ⟨rfl, by decide⟩

/-- C6 (amended): when text extraction fails and the compensating blob delete
also fails, the delete's own `InternalServerErrorException(FILE_DELETE_FAILED)`
propagates out of the catch block and replaces the `ExtractionFailure` as the
failure surfaced to the caller (`deleteFile` logs the MinIO error but then
throws); the orphaned blob also remains stored.  No record is created. -/
theorem upload_delete_failure_masks (env : UploadEnv) (file : FileInput) (s : UploadState)
    (k : String) (m : String)
    (hput : env.putResult = .ok k)
    (hext : env.extractResult = .error m)
    (hdel : env.deleteFails = true) :
    uploadDocument env file s =
      ⟨.error ⟨.internalServerError, sysMsg.FILE_DELETE_FAILED⟩, k :: s.blobs, s.docs⟩ := by
  simp [uploadDocument, hput, hext, hdel]

/-- C3: analyze on a `COMPLETED`, non-deleted record with
`forceReAnalysis = false` returns the current record unchanged (message
`ANALYSIS_ALREADY_COMPLETED`, data = the record's DTO), leaves the store
untouched, performs zero store writes, and never invokes the OpenRouter
client (`llmCalls = 0`). -/
theorem analyze_completed_short_circuit (llm : LLMCall) (id : String)
    (docs : List Document) (d : Document)
    (hvalid : isValidObjectId id = true)
    (hget : storeGet docs id = some d)
    (hst : d.analysisStatus = .COMPLETED) :
    analyzeDocument llm id false docs =
      ⟨.ok ⟨sysMsg.ANALYSIS_ALREADY_COMPLETED, toResponseDto d⟩, docs, 0, 0, 1⟩ := by
  simp [analyzeDocument, hvalid, hget, hst]

/-- A `COMPLETED` record fixture with a well-formed MongoDB ObjectId. -/
def completedDoc : Document :=
  { id := "507f1f77bcf86cd799439011"
    originalName := "a.pdf"
    mimetype := "application/pdf"
    size := 10
    storagePath := "k1"
    extractedText := ['h', 'i']
    analysisStatus := .COMPLETED
    summary := some "s"
    documentType := some "report"
    extractedMetadata := some emptyMetadata
    isDeleted := false
    deletedAt := none
    createdAt := 1
    updatedAt := 2 }

theorem analyze_completed_short_circuit_witness :
    analyzeDocument (.transportError "net") "507f1f77bcf86cd799439011" false [completedDoc] =
      ⟨.ok ⟨sysMsg.ANALYSIS_ALREADY_COMPLETED, toResponseDto completedDoc⟩,
        [completedDoc], 0, 0, 1⟩ :=
  analyze_completed_short_circuit _ _ _ _ (by decide) rfl rfl

/-- C7: analyze on a malformed id fails with `BadRequest(DOCUMENT_INVALID_ID)`
before any record-store access (`storeGets = 0`, store unchanged, no write, no
analysis call); analyze on a well-formed id whose record is absent or
soft-deleted (`storeGet` misses because of the `isDeleted: false` filter)
fails with `NotFound(DOCUMENT_NOT_FOUND)` after exactly the one lookup, with
no status transition and no analysis call. -/
theorem analyze_id_validation (llm : LLMCall) (id : String) (force : Bool)
    (docs : List Document) :
    (isValidObjectId id = false →
      analyzeDocument llm id force docs =
        ⟨.error ⟨.badRequest, sysMsg.DOCUMENT_INVALID_ID⟩, docs, 0, 0, 0⟩) ∧
    (isValidObjectId id = true → storeGet docs id = none →
      analyzeDocument llm id force docs =
        ⟨.error ⟨.notFound, sysMsg.DOCUMENT_NOT_FOUND⟩, docs, 0, 0, 1⟩) := by
  constructor
  · intro h
    simp [analyzeDocument, h]
  · intro h hg
    simp [analyzeDocument, h, hg]

theorem analyze_id_validation_witness :
    analyzeDocument (.transportError "net") "not-an-id" false [] =
      ⟨.error ⟨.badRequest, sysMsg.DOCUMENT_INVALID_ID⟩, [], 0, 0, 0⟩ ∧
    analyzeDocument (.transportError "net") "507f1f77bcf86cd799439011" false [] =
      ⟨.error ⟨.notFound, sysMsg.DOCUMENT_NOT_FOUND⟩, [], 0, 0, 1⟩ :=
  ⟨(analyze_id_validation _ _ _ _).1 (by decide),
    (analyze_id_validation _ _ _ _).2 (by decide) rfl⟩

/-- An OpenRouter 200 response whose parsed JSON is missing `documentType`. -/
def missingFieldCall : LLMCall :=
  .response 200 (some ⟨some "s", none, some emptyMetadata⟩) none

/-- A `PENDING` record fixture awaiting analysis. -/
def pendingDoc : Document :=
  { id := "507f1f77bcf86cd799439011"
    originalName := "a.pdf"
    mimetype := "application/pdf"
    size := 10
    storagePath := "k1"
    extractedText := ['h', 'i']
    analysisStatus := .PENDING
    summary := some "old summary"
    documentType := none
    extractedMetadata := some emptyMetadata
    isDeleted := false
    deletedAt := none
    createdAt := 1
    updatedAt := 2 }

/-- C4 evaluated at its failing input: the OpenRouter response is a 200 whose
parsed JSON is missing `documentType`; the validation inside
`OpenrouterService.analyzeDocument` throws the distinct
`LLM_RESPONSE_INVALID` exception (first conjunct), but the same method's
catch-all swallows it and rethrows the generic `LLM_ANALYSIS_FAILED`, which is
what the orchestrator surfaces (second conjunct).  `FAILED` is persisted as
the claim states (third conjunct), but the surfaced failure is the generic
analysis failure, not the distinct invalid-result failure (fourth conjunct). -/
theorem analyze_missing_field_surfaces_generic :
    openrouterAnalyzeInner missingFieldCall =
      .error ⟨.internalServerError, sysMsg.LLM_RESPONSE_INVALID⟩ ∧
    (analyzeDocument missingFieldCall "507f1f77bcf86cd799439011" false
        [pendingDoc]).outcome =
      .error ⟨.internalServerError, sysMsg.LLM_ANALYSIS_FAILED⟩ ∧
    storeFindById
      (analyzeDocument missingFieldCall "507f1f77bcf86cd799439011" false
        [pendingDoc]).docs "507f1f77bcf86cd799439011" =
      some { pendingDoc with analysisStatus := .FAILED } ∧
    sysMsg.LLM_ANALYSIS_FAILED ≠ sysMsg.LLM_RESPONSE_INVALID := by
  decide

/-- C5 evaluated at failing inputs: authentication failure (401), rate-limit
(429), insufficient credits (402), other upstream 4xx, malformed/empty
response (missing content), and network error all surface to the caller as
one and the same `InternalServerErrorException(LLM_ANALYSIS_FAILED)` — the
specific exceptions thrown inside the `try` block (shown distinct on the
inner function in the last conjunct) are replaced by the method's own
catch-all, so two failures of different subkinds do surface as the same
failure kind and message, contradicting the claim. -/
theorem analysis_failure_kinds_collapse :
    openrouterAnalyze (.response 401 none none) =
      .error ⟨.internalServerError, sysMsg.LLM_ANALYSIS_FAILED⟩ ∧
    openrouterAnalyze (.response 429 none none) =
      .error ⟨.internalServerError, sysMsg.LLM_ANALYSIS_FAILED⟩ ∧
    openrouterAnalyze (.response 402 none none) =
      .error ⟨.internalServerError, sysMsg.LLM_ANALYSIS_FAILED⟩ ∧
    openrouterAnalyze (.response 418 none (some "teapot")) =
      .error ⟨.internalServerError, sysMsg.LLM_ANALYSIS_FAILED⟩ ∧
    openrouterAnalyze (.response 200 none none) =
      .error ⟨.internalServerError, sysMsg.LLM_ANALYSIS_FAILED⟩ ∧
    openrouterAnalyze (.transportError "connect ECONNREFUSED") =
      .error ⟨.internalServerError, sysMsg.LLM_ANALYSIS_FAILED⟩ ∧
    openrouterAnalyzeInner (.response 401 none none) ≠
      openrouterAnalyzeInner (.response 429 none none) := by
  decide

/-- C8: when an analyze run gets past the short-circuit and the analysis step
fails (client failure or invalid result — both reach the orchestrator as an
error from `openrouterAnalyze`), the only change made to the store is that
the targeted record's `analysisStatus` becomes `FAILED`: the record's prior
`summary`, `documentType` and `extractedMetadata` (and every other field, and
every other record) are unchanged, and the error is re-surfaced. -/
theorem analyze_failure_frame (llm : LLMCall) (id : String) (force : Bool)
    (docs : List Document) (d : Document) (e : ServiceError)
    (hvalid : isValidObjectId id = true)
    (hnodup : (docs.map Document.id).Nodup)
    (hget : storeGet docs id = some d)
    (hnoshort : (d.analysisStatus == AnalysisStatus.COMPLETED && !force) = false)
    (hfail : openrouterAnalyze llm = .error e) :
    (analyzeDocument llm id force docs).outcome = .error e ∧
    (analyzeDocument llm id force docs).docs =
      updateFirst (fun x => x.id == id)
        (fun x => { x with analysisStatus := .FAILED }) docs ∧
    storeFindById (analyzeDocument llm id force docs).docs id =
      some { d with analysisStatus := .FAILED } := by
  have hfind : storeFindById docs id = some d :=
    storeFindById_of_storeGet docs id d hnodup hget
  have hfind' : List.find? (fun x : Document => x.id == id) docs = some d := hfind
  have hpd : (d.id == id) = true :=
    @List.find?_some _ (fun x : Document => x.id == id) d docs hfind'
  have h1 : storeUpdate docs id (fun x => { x with analysisStatus := .ANALYZING }) =
      .ok ({ d with analysisStatus := .ANALYZING },
        updateFirst (fun x => x.id == id)
          (fun x => { x with analysisStatus := .ANALYZING }) docs) := by
    simp [storeUpdate, hfind]
  have hfind1 : storeFindById
      (updateFirst (fun x => x.id == id)
        (fun x => { x with analysisStatus := .ANALYZING }) docs) id =
      some { d with analysisStatus := .ANALYZING } :=
    find?_updateFirst _ _ docs d hfind hpd
  have h2 : storeUpdate
      (updateFirst (fun x => x.id == id)
        (fun x => { x with analysisStatus := .ANALYZING }) docs) id
      (fun x => { x with analysisStatus := .FAILED }) =
      .ok ({ d with analysisStatus := .FAILED },
        updateFirst (fun x => x.id == id) (fun x => { x with analysisStatus := .FAILED })
          (updateFirst (fun x => x.id == id)
            (fun x => { x with analysisStatus := .ANALYZING }) docs)) := by
    simp [storeUpdate, hfind1]
  have hcomp : updateFirst (fun x : Document => x.id == id)
      (fun x => { x with analysisStatus := .FAILED })
      (updateFirst (fun x => x.id == id)
        (fun x => { x with analysisStatus := .ANALYZING }) docs) =
      updateFirst (fun x => x.id == id)
        (fun x => { x with analysisStatus := .FAILED }) docs := by
    rw [updateFirst_comp (fun x : Document => x.id == id)
      (fun x => { x with analysisStatus := .ANALYZING })
      (fun x => { x with analysisStatus := .FAILED }) (fun a ha => ha)]
  have hres : analyzeDocument llm id force docs =
      ⟨.error e,
        updateFirst (fun x => x.id == id)
          (fun x => { x with analysisStatus := .FAILED }) docs, 1, 2, 1⟩ := by
    simp only [analyzeDocument, hvalid, Bool.not_true, Bool.false_eq_true, if_false,
      hget, hnoshort, h1, hfail, h2, hcomp]
  rw [hres]
  exact ⟨rfl, rfl, find?_updateFirst _ _ docs d hfind hpd⟩

/-- A previously `FAILED` record fixture (prior results retained). -/
def failedDoc : Document :=
  { id := "507f1f77bcf86cd799439011"
    originalName := "a.pdf"
    mimetype := "application/pdf"
    size := 10
    storagePath := "k1"
    extractedText := ['h', 'i']
    analysisStatus := .FAILED
    summary := some "old summary"
    documentType := some "report"
    extractedMetadata := some emptyMetadata
    isDeleted := false
    deletedAt := none
    createdAt := 1
    updatedAt := 2 }

theorem analyze_failure_frame_witness :
    (analyzeDocument (.response 401 none none) "507f1f77bcf86cd799439011" false
        [failedDoc]).outcome =
      .error ⟨.internalServerError, sysMsg.LLM_ANALYSIS_FAILED⟩ ∧
    (analyzeDocument (.response 401 none none) "507f1f77bcf86cd799439011" false
        [failedDoc]).docs =
      updateFirst (fun x => x.id == "507f1f77bcf86cd799439011")
        (fun x => { x with analysisStatus := .FAILED }) [failedDoc] ∧
    storeFindById
      (analyzeDocument (.response 401 none none) "507f1f77bcf86cd799439011" false
        [failedDoc]).docs "507f1f77bcf86cd799439011" =
      some { failedDoc with analysisStatus := .FAILED } :=
  analyze_failure_frame (.response 401 none none) "507f1f77bcf86cd799439011" false
    [failedDoc] failedDoc ⟨.internalServerError, sysMsg.LLM_ANALYSIS_FAILED⟩
    (by decide) (by decide) rfl rfl rfl

/-- C9: deleting an existing non-deleted record succeeds with a `null` data
response and marks exactly that record `isDeleted = true` with `deletedAt`
set; nothing is physically removed (same length, the marked record is still
stored); afterwards the record is invisible to `storeGet`, `getDocument`
returns `NotFound`, `analyzeDocument` returns `NotFound` without any write or
analysis call, and `listDocuments` never returns it for any query. -/
theorem delete_soft_delete_excludes (id : String) (now : Nat)
    (docs : List Document) (d : Document)
    (hvalid : isValidObjectId id = true)
    (hnodup : (docs.map Document.id).Nodup)
    (hget : storeGet docs id = some d) :
    (deleteDocument id now docs).outcome = .ok ⟨sysMsg.DOCUMENT_DELETED, none⟩ ∧
    (deleteDocument id now docs).docs =
      updateFirst (fun x => x.id == id)
        (fun x => { x with isDeleted := true, deletedAt := some now }) docs ∧
    (deleteDocument id now docs).docs.length = docs.length ∧
    ({ d with isDeleted := true, deletedAt := some now } ∈ (deleteDocument id now docs).docs) ∧
    storeGet (deleteDocument id now docs).docs id = none ∧
    (getDocument id (deleteDocument id now docs).docs).outcome =
      .error ⟨.notFound, sysMsg.DOCUMENT_NOT_FOUND⟩ ∧
    (∀ (llm : LLMCall) (force : Bool),
      analyzeDocument llm id force (deleteDocument id now docs).docs =
        ⟨.error ⟨.notFound, sysMsg.DOCUMENT_NOT_FOUND⟩,
          (deleteDocument id now docs).docs, 0, 0, 1⟩) ∧
    (∀ q : ListQuery, ∀ dto ∈ (listDocuments q (deleteDocument id now docs).docs).data,
      dto.id ≠ id) := by
  have hfind : storeFindById docs id = some d :=
    storeFindById_of_storeGet docs id d hnodup hget
  have hres : deleteDocument id now docs =
      ⟨.ok ⟨sysMsg.DOCUMENT_DELETED, none⟩,
        updateFirst (fun x => x.id == id)
          (fun x => { x with isDeleted := true, deletedAt := some now }) docs⟩ := by
    simp [deleteDocument, hvalid, hget, storeUpdate, hfind]
  rw [hres]
  have hnone : storeGet
      (updateFirst (fun x => x.id == id)
        (fun x => { x with isDeleted := true, deletedAt := some now }) docs) id = none :=
    storeGet_updateFirst_deleted id
      (fun x => { x with isDeleted := true, deletedAt := some now })
      (fun a => rfl) (fun a => rfl) docs hnodup
  have hnone' : List.find? (fun x : Document => x.id == id && !x.isDeleted)
      (updateFirst (fun x => x.id == id)
        (fun x => { x with isDeleted := true, deletedAt := some now }) docs) = none := hnone
  refine ⟨rfl, rfl, updateFirst_length _ _ docs, ?_, hnone, ?_, ?_, ?_⟩
  · exact mem_updateFirst_of_find? _ _ docs d hfind
  · simp [getDocument, hvalid, hnone]
  · intro llm force
    simp [analyzeDocument, hvalid, hnone]
  · intro q dto hdto
    simp only [listDocuments, List.mem_map] at hdto
    obtain ⟨y, hy, hydto⟩ := hdto
    have hy1 : y ∈ sortByCreatedAtDesc
        ((updateFirst (fun x => x.id == id)
          (fun x => { x with isDeleted := true, deletedAt := some now }) docs).filter
            (matchesFilter q)) :=
      List.drop_subset _ _ (List.take_subset _ _ hy)
    have hy2 := (mem_sortByCreatedAtDesc y _).mp hy1
    obtain ⟨hy3, hyfilt⟩ := List.mem_filter.mp hy2
    have hndel : y.isDeleted = false := by
      rcases Bool.and_eq_true _ _ |>.mp hyfilt with ⟨h1, _⟩
      rcases Bool.and_eq_true _ _ |>.mp h1 with ⟨h2, _⟩
      simpa using h2
    intro hcontra
    have hyid : y.id = id := by rw [← hydto] at hcontra; exact hcontra
    have hnotp := List.find?_eq_none.mp hnone' y hy3
    exact hnotp (by simp [hyid, hndel])

theorem delete_soft_delete_excludes_witness :
    (deleteDocument "507f1f77bcf86cd799439011" 5 [failedDoc]).outcome =
      .ok ⟨sysMsg.DOCUMENT_DELETED, none⟩ ∧
    storeGet (deleteDocument "507f1f77bcf86cd799439011" 5 [failedDoc]).docs
      "507f1f77bcf86cd799439011" = none ∧
    (getDocument "507f1f77bcf86cd799439011"
      (deleteDocument "507f1f77bcf86cd799439011" 5 [failedDoc]).docs).outcome =
      .error ⟨.notFound, sysMsg.DOCUMENT_NOT_FOUND⟩ ∧
    analyzeDocument (.transportError "net") "507f1f77bcf86cd799439011" false
      (deleteDocument "507f1f77bcf86cd799439011" 5 [failedDoc]).docs =
      ⟨.error ⟨.notFound, sysMsg.DOCUMENT_NOT_FOUND⟩,
        (deleteDocument "507f1f77bcf86cd799439011" 5 [failedDoc]).docs, 0, 0, 1⟩ :=
  have h := delete_soft_delete_excludes "507f1f77bcf86cd799439011" 5 [failedDoc] failedDoc
    (by decide) (by decide) rfl
  ⟨h.1, h.2.2.2.2.1, h.2.2.2.2.2.1, h.2.2.2.2.2.2.1 (.transportError "net") false⟩

/-- C10: every document representation returned by a successful upload, get,
analyze or list is `toResponseDto` of a stored record, and `toResponseDto`
carries exactly the eleven exposed fields: it is invariant under arbitrary
changes to the internal `storagePath`, `isDeleted`, and `deletedAt` fields,
so those internals are never present in any response. -/
theorem responses_expose_only_dto_fields :
    (∀ (d : Document) (p : String) (b : Bool) (t : Option Nat),
      toResponseDto { d with storagePath := p, isDeleted := b, deletedAt := t } =
        toResponseDto d) ∧
    (∀ (id : String) (docs : List Document) (r : ApiResponse DocumentResponseDto),
      (getDocument id docs).outcome = .ok r → ∃ d ∈ docs, r.data = toResponseDto d) ∧
    (∀ (q : ListQuery) (docs : List Document) (dto : DocumentResponseDto),
      dto ∈ (listDocuments q docs).data → ∃ d ∈ docs, dto = toResponseDto d) ∧
    (∀ (env : UploadEnv) (file : FileInput) (s : UploadState)
        (r : ApiResponse DocumentResponseDto),
      (uploadDocument env file s).outcome = .ok r →
      ∃ d ∈ (uploadDocument env file s).docs, r.data = toResponseDto d) ∧
    (∀ (llm : LLMCall) (id : String) (force : Bool) (docs : List Document)
        (r : ApiResponse DocumentResponseDto),
      (analyzeDocument llm id force docs).outcome = .ok r →
      ∃ d ∈ (analyzeDocument llm id force docs).docs, r.data = toResponseDto d) := by
  refine ⟨fun d p b t => rfl, ?_, ?_, ?_, ?_⟩
  · intro id docs r hout
    by_cases hv : isValidObjectId id = true
    · cases hg : storeGet docs id with
      | none => simp [getDocument, hv, hg] at hout
      | some doc =>
        simp only [getDocument, hv, Bool.not_true, Bool.false_eq_true, if_false, hg,
          Except.ok.injEq] at hout
        exact ⟨doc, List.mem_of_find?_eq_some hg, by rw [← hout]⟩
    · have hv' : isValidObjectId id = false := by simpa using hv
      simp [getDocument, hv'] at hout
  · intro q docs dto hdto
    simp only [listDocuments, List.mem_map] at hdto
    obtain ⟨y, hy, hydto⟩ := hdto
    have hy1 : y ∈ sortByCreatedAtDesc (docs.filter (matchesFilter q)) :=
      List.drop_subset _ _ (List.take_subset _ _ hy)
    have hy2 := (mem_sortByCreatedAtDesc y _).mp hy1
    exact ⟨y, (List.mem_filter.mp hy2).1, hydto.symm⟩
  · intro env file s r hout
    cases hput : env.putResult with
    | error m => simp [uploadDocument, hput] at hout
    | ok k =>
      cases hext : env.extractResult with
      | error m =>
        cases hdel : env.deleteFails <;> simp [uploadDocument, hput, hext, hdel] at hout
      | ok raw =>
        cases hcreate : env.createFails with
        | true =>
          cases hdel : env.deleteFails <;>
            simp [uploadDocument, hput, hext, hcreate, hdel] at hout
        | false =>
          simp only [uploadDocument, hput, hext, hcreate, Bool.false_eq_true, if_false,
            Except.ok.injEq] at hout
          simp only [uploadDocument, hput, hext, hcreate, Bool.false_eq_true, if_false]
          exact ⟨_, List.mem_append_right _ (List.mem_singleton.mpr rfl), by rw [← hout]⟩
  · intro llm id force docs r hout
    by_cases hv : isValidObjectId id = true
    · cases hg : storeGet docs id with
      | none => simp [analyzeDocument, hv, hg] at hout
      | some doc =>
        by_cases hshort : (doc.analysisStatus == AnalysisStatus.COMPLETED && !force) = true
        · simp only [analyzeDocument, hv, Bool.not_true, Bool.false_eq_true, if_false, hg,
            hshort, if_true, Except.ok.injEq] at hout
          simp only [analyzeDocument, hv, Bool.not_true, Bool.false_eq_true, if_false, hg,
            hshort, if_true]
          exact ⟨doc, List.mem_of_find?_eq_some hg, by rw [← hout]⟩
        · have hshort' : (doc.analysisStatus == AnalysisStatus.COMPLETED && !force) = false := by
            simpa using hshort
          cases hfind : storeFindById docs id with
          | none =>
            simp [analyzeDocument, hv, hg, hshort', storeUpdate, hfind] at hout
          | some d0 =>
            cases hllm : openrouterAnalyze llm with
            | error e =>
              cases hfind1 : storeFindById
                  (updateFirst (fun x => x.id == id)
                    (fun x => { x with analysisStatus := .ANALYZING }) docs) id with
              | none =>
                simp [analyzeDocument, hv, hg, hshort', storeUpdate, hfind, hllm,
                  hfind1] at hout
              | some d1 =>
                simp [analyzeDocument, hv, hg, hshort', storeUpdate, hfind, hllm,
                  hfind1] at hout
            | ok result =>
              cases hfind1 : storeFindById
                  (updateFirst (fun x => x.id == id)
                    (fun x => { x with analysisStatus := .ANALYZING }) docs) id with
              | none =>
                simp [analyzeDocument, hv, hg, hshort', storeUpdate, hfind, hllm,
                  hfind1] at hout
              | some d1 =>
                simp only [analyzeDocument, hv, Bool.not_true, Bool.false_eq_true, if_false,
                  hg, hshort', if_false, storeUpdate, hfind, hllm, hfind1,
                  Except.ok.injEq] at hout
                simp only [analyzeDocument, hv, Bool.not_true, Bool.false_eq_true, if_false,
                  hg, hshort', if_false, storeUpdate, hfind, hllm, hfind1]
                have hfind1' : List.find? (fun x : Document => x.id == id)
                    (updateFirst (fun x => x.id == id)
                      (fun x => { x with analysisStatus := .ANALYZING }) docs) =
                    some d1 := hfind1
                refine ⟨_, mem_updateFirst_of_find? (fun x : Document => x.id == id)
                  (fun x =>
                    { x with
                      summary := some result.summary
                      documentType := some result.documentType
                      extractedMetadata := some result.extractedMetadata
                      analysisStatus := .COMPLETED }) _ d1 hfind1', by rw [← hout]⟩
    · have hv' : isValidObjectId id = false := by simpa using hv
      simp [analyzeDocument, hv'] at hout

theorem responses_expose_only_dto_fields_witness :
    ∃ d ∈ [completedDoc],
      (⟨sysMsg.DOCUMENT_FETCHED, toResponseDto completedDoc⟩ :
        ApiResponse DocumentResponseDto).data = toResponseDto d :=
  responses_expose_only_dto_fields.2.1 "507f1f77bcf86cd799439011" [completedDoc]
    ⟨sysMsg.DOCUMENT_FETCHED, toResponseDto completedDoc⟩ (by decide)

theorem upload_delete_failure_masks_witness :
    uploadDocument ⟨.ok "k2", .error "corrupt docx", false, true, "id2", 3⟩
        ⟨"b.docx", "application/vnd.openxmlformats-officedocument.wordprocessingml.document", 9⟩
        ⟨["old"], []⟩ =
      ⟨.error ⟨.internalServerError, sysMsg.FILE_DELETE_FAILED⟩, "k2" :: ["old"], []⟩ :=
  upload_delete_failure_masks _ _ _ "k2" "corrupt docx" rfl rfl rfl

end DocSummarizer
